import Mathlib

/-!
Verification of the Mergington High School activities API (src/app.py).

The store is the in-memory mapping from activity name to activity record.
Python dicts preserve insertion order; assignment to an existing key keeps
its position and new keys are appended, so the store is embedded as an
association list with first-match lookup, first-match replacement and
first-match removal.  Every handler is embedded as a function
`Store -> Store × Except HErr α`, threading the store exactly in the
statement order of the Python body: an early `raise HTTPException` returns
the store unmodified together with the error.
-/

/-- An activity record as built by `create_activity` and maintained by the
handlers: all six keys are always present in records created by the API. -/
structure Activity where
  description : String
  schedule : String
  max_participants : Int
  participants : List String
  poster : Option String
  draft : Bool
deriving Repr, DecidableEq

/-- An `HTTPException`: status code and detail message (detail text kept
verbatim from app.py except that ASCII quotes around names are dropped). -/
structure HErr where
  status : Nat
  detail : String
deriving Repr, DecidableEq

/-- The in-memory `activities` mapping: name -> record, insertion ordered. -/
abbrev Store := List (String × Activity)

/-- Dict lookup `activities[name]` / membership `name in activities`:
first entry whose key matches. -/
def lookupActivity : Store → String → Option Activity
  | [], _ => none
  | (m, a) :: rest, n => if m = n then some a else lookupActivity rest n

/-- Dict assignment `activities[name] = a` for a key already present
(also models an in-place mutation of the record aliased by that key):
replaces the value at the first matching key, keeping its position. -/
def setEntry : Store → String → Activity → Store
  | [], _, _ => []
  | (m, b) :: rest, n, a =>
      if m = n then (m, a) :: rest else (m, b) :: setEntry rest n a

/-- Dict removal `activities.pop(name)`: drops the first matching entry. -/
def eraseEntry : Store → String → Store
  | [], _ => []
  | (m, b) :: rest, n => if m = n then rest else (m, b) :: eraseEntry rest n

/-- The JSON body of POST /activities: each recognized key is present
(`some`) or absent (`none`).  `payload.get("poster")` takes no default, so
an absent poster key and a null poster both embed as `none`. -/
structure CreatePayload where
  name : Option String
  description : Option String
  schedule : Option String
  max_participants : Option Int
  participants : Option (List String)
  poster : Option String
  draft : Option Bool
deriving Repr, DecidableEq

/-- The record literal built in `create_activity` (app.py lines 85-92):
`payload.get(key, default)` for each field, `int` and `bool` coercions
acting as the identity on the already-typed values. -/
def newActivity (p : CreatePayload) : Activity :=
  { description := p.description.getD ""
    schedule := p.schedule.getD ""
    max_participants := p.max_participants.getD 0
    participants := p.participants.getD []
    poster := p.poster
    draft := p.draft.getD true }

/-- POST /activities (app.py lines 77-94).  `if not name` is true for an
absent name and for the empty string. -/
def create_activity (payload : CreatePayload) (activities : Store) :
    Store × Except HErr Activity :=
  match payload.name with
  | none => (activities, .error ⟨400, "Missing name field"⟩)
  | some name =>
      if name = "" then (activities, .error ⟨400, "Missing name field"⟩)
      else if (lookupActivity activities name).isSome then
        (activities, .error ⟨400, "Activity already exists"⟩)
      else
        (activities ++ [(name, newActivity payload)], .ok (newActivity payload))

/-- GET /activities (app.py lines 63-68): all records when
`published_only` is false, else only those whose draft flag is off. -/
def get_activities (published_only : Bool) (activities : Store) : Store :=
  if !published_only then activities
  else activities.filter fun e => !e.2.draft

/-- GET /activities/all (app.py lines 71-74): the whole mapping. -/
def get_all_activities (activities : Store) : Store :=
  activities

/-- The JSON body of PUT /activities/{name}: `some v` means the key is in
the payload with value `v`.  For poster the stored value is itself
optional, hence `Option (Option String)`. -/
structure UpdatePayload where
  description : Option String
  schedule : Option String
  max_participants : Option Int
  poster : Option (Option String)
  draft : Option Bool
deriving Repr, DecidableEq

/-- The field-by-field overwrite loop of `update_activity` (app.py lines
102-106): each supplied key overwrites the record, in source order. -/
def updatedActivity (a : Activity) (p : UpdatePayload) : Activity :=
  let a1 := match p.description with
    | some v => { a with description := v }
    | none => a
  let a2 := match p.schedule with
    | some v => { a1 with schedule := v }
    | none => a1
  let a3 := match p.max_participants with
    | some v => { a2 with max_participants := v }
    | none => a2
  let a4 := match p.poster with
    | some v => { a3 with poster := v }
    | none => a3
  match p.draft with
  | some v => { a4 with draft := v }
  | none => a4

/-- PUT /activities/{name} (app.py lines 97-108). -/
def update_activity (activity_name : String) (payload : UpdatePayload)
    (activities : Store) : Store × Except HErr Activity :=
  match lookupActivity activities activity_name with
  | none => (activities, .error ⟨404, "Activity not found"⟩)
  | some activity =>
      let a := updatedActivity activity payload
      (setEntry activities activity_name a, .ok a)

/-- DELETE /activities/{name} (app.py lines 111-117). -/
def delete_activity (activity_name : String) (activities : Store) :
    Store × Except HErr Activity :=
  match lookupActivity activities activity_name with
  | none => (activities, .error ⟨404, "Activity not found"⟩)
  | some removed => (eraseEntry activities activity_name, .ok removed)

/-- POST /activities/{name}/publish (app.py lines 120-126). -/
def publish_activity (activity_name : String) (activities : Store) :
    Store × Except HErr Unit :=
  match lookupActivity activities activity_name with
  | none => (activities, .error ⟨404, "Activity not found"⟩)
  | some activity =>
      (setEntry activities activity_name { activity with draft := false }, .ok ())

/-- POST /activities/{name}/unpublish (app.py lines 129-135). -/
def unpublish_activity (activity_name : String) (activities : Store) :
    Store × Except HErr Unit :=
  match lookupActivity activities activity_name with
  | none => (activities, .error ⟨404, "Activity not found"⟩)
  | some activity =>
      (setEntry activities activity_name { activity with draft := true }, .ok ())

/-- POST /activities/{name}/signup (app.py lines 138-158): 404 if the
activity is absent, 400 if the email is already a participant, else the
email is appended to the participants list. -/
def signup_for_activity (activity_name email : String) (activities : Store) :
    Store × Except HErr Unit :=
  match lookupActivity activities activity_name with
  | none => (activities, .error ⟨404, "Activity not found"⟩)
  | some activity =>
      if email ∈ activity.participants then
        (activities, .error ⟨400, "Student is already signed up"⟩)
      else
        (setEntry activities activity_name
          { activity with participants := activity.participants ++ [email] }, .ok ())

/-- DELETE /activities/{name}/unregister (app.py lines 161-181): 404 if
the activity is absent, 400 if the email is not a participant, else
`list.remove` drops the first occurrence of the email. -/
def unregister_from_activity (activity_name email : String) (activities : Store) :
    Store × Except HErr Unit :=
  match lookupActivity activities activity_name with
  | none => (activities, .error ⟨404, "Activity not found"⟩)
  | some activity =>
      if email ∈ activity.participants then
        (setEntry activities activity_name
          { activity with participants := activity.participants.erase email }, .ok ())
      else
        (activities, .error ⟨400, "Student is not signed up for this activity"⟩)

/-- A record as it sits in the JSON file: legacy entries may lack any of
the keys, so every field is optional. -/
structure StoredActivity where
  description : Option String
  schedule : Option String
  max_participants : Option Int
  participants : Option (List String)
  poster : Option String
  draft : Option Bool
deriving Repr, DecidableEq

/-- The on-disk JSON document: an object keyed by activity name. -/
abbrev StoredData := List (String × StoredActivity)

/-- The `setdefault` loop of `_load_activities` (app.py lines 41-44):
fills `participants`, `max_participants` and `draft` when missing. -/
def applyDefaults (d : StoredActivity) : StoredActivity :=
  { d with
    participants := some (d.participants.getD [])
    max_participants := some (d.max_participants.getD 0)
    draft := some (d.draft.getD false) }

/-- `_save_activities` (app.py lines 48-51): `json.dump` writes the
mapping verbatim, so at this abstraction the file contents are the
mapping itself. -/
def _save_activities (activities : StoredData) : StoredData :=
  activities

/-- `_load_activities` (app.py lines 36-45): parse the file and default
the three legacy keys on every record. -/
def _load_activities (file : StoredData) : StoredData :=
  file.map fun e => (e.1, applyDefaults e.2)

/-- A stored record already carrying the three defaulted keys. -/
def hasDefaultKeys (d : StoredActivity) : Bool :=
  d.participants.isSome && d.max_participants.isSome && d.draft.isSome

/-- Claim C9: the public listing with published_only=false is exactly the
administrative list_all view. -/
theorem get_activities_false_eq_all (s : Store) :
    get_activities false s = get_all_activities s :=
  rfl

/-- Claim C3: the published-only listing never contains a draft record,
and every record of the store appears both in the administrative listing
and in the unfiltered public listing. -/
theorem listing_respects_draft (s : Store) :
    (∀ e, e ∈ get_activities true s → e.2.draft = false)
    ∧ (∀ e, e ∈ s → e ∈ get_all_activities s ∧ e ∈ get_activities false s) := by
  constructor
  · intro e he
    have hm : e ∈ s.filter (fun x => !x.2.draft) := by
      simpa [get_activities] using he
    have := (List.mem_filter.mp hm).2
    simpa using this
  · intro e he
    exact ⟨he, by simpa [get_activities] using he⟩

/-- Witness for C3 at a concrete two-record store. -/
theorem listing_respects_draft_witness :
    ("Chess", (⟨"", "", 0, [], none, false⟩ : Activity)) ∈
      get_all_activities
        [("Chess", ⟨"", "", 0, [], none, false⟩), ("Art", ⟨"", "", 0, [], none, true⟩)] :=
  ((listing_respects_draft
      [("Chess", ⟨"", "", 0, [], none, false⟩), ("Art", ⟨"", "", 0, [], none, true⟩)]).2
    ("Chess", ⟨"", "", 0, [], none, false⟩) (by simp)).1

/-- Replacing the value found at a key makes the lookup return the new
value; replacement only happens at present keys, matching dict mutation. -/
theorem lookup_setEntry_self (s : Store) (n : String) (a b : Activity)
    (h : lookupActivity s n = some a) :
    lookupActivity (setEntry s n b) n = some b := by
  induction s with
  | nil => simp [lookupActivity] at h
  | cons e rest ih =>
      obtain ⟨m, c⟩ := e
      by_cases hm : m = n
      · simp [setEntry, lookupActivity, hm]
      · simp [setEntry, lookupActivity, hm] at h ⊢
        exact ih h

/-- Replacing the value at one key leaves lookups at other keys alone. -/
theorem lookup_setEntry_ne (s : Store) (n m : String) (b : Activity)
    (h : m ≠ n) :
    lookupActivity (setEntry s n b) m = lookupActivity s m := by
  induction s with
  | nil => simp [setEntry]
  | cons e rest ih =>
      obtain ⟨k, c⟩ := e
      by_cases hk : k = n
      · subst hk
        simp [setEntry, lookupActivity, Ne.symm h]
      · by_cases hkm : k = m <;> simp [setEntry, lookupActivity, hk, hkm, ih, h]

/-- Two successive replacements at one key collapse to the second. -/
theorem setEntry_setEntry (s : Store) (n : String) (a b : Activity) :
    setEntry (setEntry s n a) n b = setEntry s n b := by
  induction s with
  | nil => simp [setEntry]
  | cons e rest ih =>
      obtain ⟨k, c⟩ := e
      by_cases hk : k = n <;> simp [setEntry, hk, ih]

/-- Writing back the value a key already holds is a no-op on the store. -/
theorem setEntry_lookup_self (s : Store) (n : String) (a : Activity)
    (h : lookupActivity s n = some a) :
    setEntry s n a = s := by
  induction s with
  | nil => rfl
  | cons e rest ih =>
      obtain ⟨k, c⟩ := e
      by_cases hk : k = n
      · simp [lookupActivity, hk] at h
        simp [setEntry, hk, h]
      · simp [lookupActivity, hk] at h
        simp [setEntry, hk, ih h]

/-- Claim C1: create fails exactly when the name is missing, empty, or
already a key of the store; otherwise it appends the new record under that
name and returns it, with every unsupplied field taking its default
(description and schedule empty, max_participants 0, participants empty,
poster absent, draft true). -/
theorem create_activity_correct (s : Store) (p : CreatePayload) :
    ((∃ e, (create_activity p s).2 = .error e) ↔
      p.name = none ∨ p.name = some "" ∨
        ∃ n, p.name = some n ∧ (lookupActivity s n).isSome)
    ∧ ∀ n, p.name = some n → n ≠ "" → lookupActivity s n = none →
        create_activity p s = (s ++ [(n, newActivity p)], .ok (newActivity p))
        ∧ (p.description = none → (newActivity p).description = "")
        ∧ (p.schedule = none → (newActivity p).schedule = "")
        ∧ (p.max_participants = none → (newActivity p).max_participants = 0)
        ∧ (p.participants = none → (newActivity p).participants = [])
        ∧ (p.poster = none → (newActivity p).poster = none)
        ∧ (p.draft = none → (newActivity p).draft = true) := by
  constructor
  · cases hn : p.name with
    | none => simp [create_activity, hn]
    | some n =>
        by_cases he : n = ""
        · simp [create_activity, hn, he]
        · by_cases hl : (lookupActivity s n).isSome
          · simp [create_activity, hn, he, hl]
          · simp [create_activity, hn, he, hl]
  · intro n hn hne hl
    refine ⟨?_, ?_, ?_, ?_, ?_, ?_, ?_⟩
    · simp [create_activity, hn, hne, hl]
    all_goals intro h; simp [newActivity, h]

/-- Witness for C1: creating Chess Club in the empty store with an
all-defaults payload. -/
theorem create_activity_correct_witness :
    create_activity ⟨some "Chess Club", none, none, none, none, none, none⟩ [] =
      ([("Chess Club", newActivity ⟨some "Chess Club", none, none, none, none, none, none⟩)],
        .ok (newActivity ⟨some "Chess Club", none, none, none, none, none, none⟩)) :=
  ((create_activity_correct [] ⟨some "Chess Club", none, none, none, none, none, none⟩).2
    "Chess Club" rfl (by decide) rfl).1

/-- Claim C2: every operation that returns an error returns the store
exactly unchanged, and in particular creating a (nonempty) name already
present fails with the 400 duplicate-name error and changes nothing. -/
theorem errors_leave_store_unchanged (s : Store) :
    (∀ p e, (create_activity p s).2 = .error e → (create_activity p s).1 = s)
    ∧ (∀ n p e, (update_activity n p s).2 = .error e → (update_activity n p s).1 = s)
    ∧ (∀ n e, (delete_activity n s).2 = .error e → (delete_activity n s).1 = s)
    ∧ (∀ n e, (publish_activity n s).2 = .error e → (publish_activity n s).1 = s)
    ∧ (∀ n e, (unpublish_activity n s).2 = .error e → (unpublish_activity n s).1 = s)
    ∧ (∀ n email e, (signup_for_activity n email s).2 = .error e →
        (signup_for_activity n email s).1 = s)
    ∧ (∀ n email e, (unregister_from_activity n email s).2 = .error e →
        (unregister_from_activity n email s).1 = s)
    ∧ (∀ p n, p.name = some n → n ≠ "" → (lookupActivity s n).isSome →
        create_activity p s = (s, .error ⟨400, "Activity already exists"⟩)) := by
  refine ⟨?_, ?_, ?_, ?_, ?_, ?_, ?_, ?_⟩
  · intro p e h
    cases hn : p.name with
    | none => simp [create_activity, hn]
    | some n =>
        by_cases he : n = ""
        · simp [create_activity, hn, he]
        · by_cases hl : (lookupActivity s n).isSome
          · simp [create_activity, hn, he, hl]
          · simp [create_activity, hn, he, hl] at h
  · intro n p e h
    cases hl : lookupActivity s n with
    | none => simp [update_activity, hl]
    | some a => simp [update_activity, hl] at h
  · intro n e h
    cases hl : lookupActivity s n with
    | none => simp [delete_activity, hl]
    | some a => simp [delete_activity, hl] at h
  · intro n e h
    cases hl : lookupActivity s n with
    | none => simp [publish_activity, hl]
    | some a => simp [publish_activity, hl] at h
  · intro n e h
    cases hl : lookupActivity s n with
    | none => simp [unpublish_activity, hl]
    | some a => simp [unpublish_activity, hl] at h
  · intro n email e h
    cases hl : lookupActivity s n with
    | none => simp [signup_for_activity, hl]
    | some a =>
        by_cases hm : email ∈ a.participants
        · simp [signup_for_activity, hl, hm]
        · simp [signup_for_activity, hl, hm] at h
  · intro n email e h
    cases hl : lookupActivity s n with
    | none => simp [unregister_from_activity, hl]
    | some a =>
        by_cases hm : email ∈ a.participants
        · simp [unregister_from_activity, hl, hm] at h
        · simp [unregister_from_activity, hl, hm]
  · intro p n hn hne hl
    simp [create_activity, hn, hne, hl]

/-- Witness for C2: a duplicate create against a one-record store errors
and leaves the store as it was. -/
theorem errors_leave_store_unchanged_witness :
    create_activity ⟨some "A", none, none, none, none, none, none⟩
        [("A", ⟨"", "", 0, [], none, true⟩)] =
      ([("A", ⟨"", "", 0, [], none, true⟩)], .error ⟨400, "Activity already exists"⟩) :=
  (errors_leave_store_unchanged [("A", ⟨"", "", 0, [], none, true⟩)]).2.2.2.2.2.2.2
    ⟨some "A", none, none, none, none, none, none⟩ "A" rfl (by decide) (by decide)

/-- Claim C4: for an activity in the store and an email not yet among its
participants, the first signup succeeds and appends the email, the second
signup fails with the duplicate error and leaves the store as the first
left it, and the email then occurs exactly once (hence at most once) in
the participants list. -/
theorem signup_twice (s : Store) (n email : String) (a : Activity)
    (ha : lookupActivity s n = some a) (hmem : email ∉ a.participants) :
    (signup_for_activity n email s).2 = .ok ()
    ∧ lookupActivity (signup_for_activity n email s).1 n =
        some { a with participants := a.participants ++ [email] }
    ∧ (signup_for_activity n email (signup_for_activity n email s).1).2 =
        .error ⟨400, "Student is already signed up"⟩
    ∧ (signup_for_activity n email (signup_for_activity n email s).1).1 =
        (signup_for_activity n email s).1
    ∧ (a.participants ++ [email]).count email = 1 := by
  have h1 : signup_for_activity n email s =
      (setEntry s n { a with participants := a.participants ++ [email] }, .ok ()) := by
    simp [signup_for_activity, ha, hmem]
  have h2 : lookupActivity (signup_for_activity n email s).1 n =
      some { a with participants := a.participants ++ [email] } := by
    rw [h1]
    exact lookup_setEntry_self s n a _ ha
  have hmem2 : email ∈ a.participants ++ [email] := by simp
  have h3 : lookupActivity (setEntry s n { a with participants := a.participants ++ [email] }) n =
      some { a with participants := a.participants ++ [email] } :=
    lookup_setEntry_self s n a _ ha
  refine ⟨by rw [h1], h2, ?_, ?_, ?_⟩
  · rw [h1]
    simp [signup_for_activity, h3, hmem2]
  · rw [h1]
    simp [signup_for_activity, h3, hmem2]
  · rw [List.count_append]
    rw [List.count_eq_zero.mpr hmem]
    simp

/-- Witness for C4: signing a@b.com up twice for Chess in a one-record
store: the second attempt returns the duplicate-signup error. -/
theorem signup_twice_witness :
    (signup_for_activity "Chess" "a@b.com"
        (signup_for_activity "Chess" "a@b.com"
          [("Chess", ⟨"", "", 0, [], none, false⟩)]).1).2 =
      .error ⟨400, "Student is already signed up"⟩ :=
  (signup_twice [("Chess", ⟨"", "", 0, [], none, false⟩)] "Chess" "a@b.com"
    ⟨"", "", 0, [], none, false⟩ rfl (by simp)).2.2.1

/-- Claim C5: unregister returns 404 when the activity is absent, a 400
not-signed-up error when the email is not among the participants, and
otherwise removes the first occurrence of the email, so its count drops
by exactly one. -/
theorem unregister_correct (s : Store) (n email : String) :
    (lookupActivity s n = none →
        unregister_from_activity n email s = (s, .error ⟨404, "Activity not found"⟩))
    ∧ (∀ a, lookupActivity s n = some a → email ∉ a.participants →
        unregister_from_activity n email s =
          (s, .error ⟨400, "Student is not signed up for this activity"⟩))
    ∧ (∀ a, lookupActivity s n = some a → email ∈ a.participants →
        unregister_from_activity n email s =
          (setEntry s n { a with participants := a.participants.erase email }, .ok ())
        ∧ (a.participants.erase email).count email + 1 = a.participants.count email) := by
  refine ⟨?_, ?_, ?_⟩
  · intro h
    simp [unregister_from_activity, h]
  · intro a ha hm
    simp [unregister_from_activity, ha, hm]
  · intro a ha hm
    constructor
    · simp [unregister_from_activity, ha, hm]
    · rw [List.count_erase_self]
      have hpos : 0 < a.participants.count email := List.count_pos_iff.mpr hm
      omega

/-- Witness for C5: unregistering a@b.com when signed up twice by bulk
creation removes exactly the first occurrence, leaving one. -/
theorem unregister_correct_witness :
    unregister_from_activity "Chess" "a@b.com"
        [("Chess", ⟨"", "", 0, ["a@b.com", "a@b.com"], none, false⟩)] =
      (setEntry [("Chess", ⟨"", "", 0, ["a@b.com", "a@b.com"], none, false⟩)] "Chess"
        ⟨"", "", 0, (["a@b.com", "a@b.com"] : List String).erase "a@b.com", none, false⟩,
       .ok ()) :=
  ((unregister_correct [("Chess", ⟨"", "", 0, ["a@b.com", "a@b.com"], none, false⟩)]
      "Chess" "a@b.com").2.2
    ⟨"", "", 0, ["a@b.com", "a@b.com"], none, false⟩ rfl (by simp)).1

/-- Claim C8: capacity is never enforced: signup succeeds for any present
activity and fresh email even when the participants list already has
max_participants or more entries. -/
theorem capacity_not_enforced (s : Store) (n email : String) (a : Activity)
    (ha : lookupActivity s n = some a) (hmem : email ∉ a.participants)
    (hcap : a.max_participants ≤ (a.participants.length : Int)) :
    (signup_for_activity n email s).2 = .ok () := by
  simp [signup_for_activity, ha, hmem]

/-- Witness for C8: an activity full to its capacity of one still accepts
a second participant. -/
theorem capacity_not_enforced_witness :
    (signup_for_activity "Chess" "b@c.com"
        [("Chess", ⟨"", "", 1, ["a@b.com"], none, false⟩)]).2 = .ok () :=
  capacity_not_enforced [("Chess", ⟨"", "", 1, ["a@b.com"], none, false⟩)]
    "Chess" "b@c.com" ⟨"", "", 1, ["a@b.com"], none, false⟩ rfl (by simp) (by simp)

/-- Claim C6: update fails with 404 when the name is absent; otherwise it
overwrites exactly the supplied keys among description, schedule,
max_participants, poster and draft, keeps every unsupplied field (and the
participants list) at its prior value, and leaves every other activity of
the store unchanged. -/
theorem update_activity_correct (s : Store) (n : String) (p : UpdatePayload) :
    (lookupActivity s n = none →
        update_activity n p s = (s, .error ⟨404, "Activity not found"⟩))
    ∧ ∀ a, lookupActivity s n = some a →
        update_activity n p s =
          (setEntry s n (updatedActivity a p), .ok (updatedActivity a p))
        ∧ lookupActivity (update_activity n p s).1 n = some (updatedActivity a p)
        ∧ (∀ v, p.description = some v → (updatedActivity a p).description = v)
        ∧ (p.description = none → (updatedActivity a p).description = a.description)
        ∧ (∀ v, p.schedule = some v → (updatedActivity a p).schedule = v)
        ∧ (p.schedule = none → (updatedActivity a p).schedule = a.schedule)
        ∧ (∀ v, p.max_participants = some v →
            (updatedActivity a p).max_participants = v)
        ∧ (p.max_participants = none →
            (updatedActivity a p).max_participants = a.max_participants)
        ∧ (∀ v, p.poster = some v → (updatedActivity a p).poster = v)
        ∧ (p.poster = none → (updatedActivity a p).poster = a.poster)
        ∧ (∀ v, p.draft = some v → (updatedActivity a p).draft = v)
        ∧ (p.draft = none → (updatedActivity a p).draft = a.draft)
        ∧ (updatedActivity a p).participants = a.participants
        ∧ ∀ m, m ≠ n →
            lookupActivity (update_activity n p s).1 m = lookupActivity s m := by
  constructor
  · intro h
    simp [update_activity, h]
  · intro a ha
    have heq : update_activity n p s =
        (setEntry s n (updatedActivity a p), .ok (updatedActivity a p)) := by
      simp [update_activity, ha]
    refine ⟨heq, ?_, ?_, ?_, ?_, ?_, ?_, ?_, ?_, ?_, ?_, ?_, ?_, ?_⟩
    · rw [heq]
      exact lookup_setEntry_self s n a _ ha
    · intro v h
      cases hs : p.schedule <;> cases hm : p.max_participants <;>
        cases hp : p.poster <;> cases hd : p.draft <;>
        simp [updatedActivity, h, hs, hm, hp, hd]
    · intro h
      cases hs : p.schedule <;> cases hm : p.max_participants <;>
        cases hp : p.poster <;> cases hd : p.draft <;>
        simp [updatedActivity, h, hs, hm, hp, hd]
    · intro v h
      cases hde : p.description <;> cases hm : p.max_participants <;>
        cases hp : p.poster <;> cases hd : p.draft <;>
        simp [updatedActivity, h, hde, hm, hp, hd]
    · intro h
      cases hde : p.description <;> cases hm : p.max_participants <;>
        cases hp : p.poster <;> cases hd : p.draft <;>
        simp [updatedActivity, h, hde, hm, hp, hd]
    · intro v h
      cases hde : p.description <;> cases hs : p.schedule <;>
        cases hp : p.poster <;> cases hd : p.draft <;>
        simp [updatedActivity, h, hde, hs, hp, hd]
    · intro h
      cases hde : p.description <;> cases hs : p.schedule <;>
        cases hp : p.poster <;> cases hd : p.draft <;>
        simp [updatedActivity, h, hde, hs, hp, hd]
    · intro v h
      cases hde : p.description <;> cases hs : p.schedule <;>
        cases hm : p.max_participants <;> cases hd : p.draft <;>
        simp [updatedActivity, h, hde, hs, hm, hd]
    · intro h
      cases hde : p.description <;> cases hs : p.schedule <;>
        cases hm : p.max_participants <;> cases hd : p.draft <;>
        simp [updatedActivity, h, hde, hs, hm, hd]
    · intro v h
      cases hde : p.description <;> cases hs : p.schedule <;>
        cases hm : p.max_participants <;> cases hp : p.poster <;>
        simp [updatedActivity, h, hde, hs, hm, hp]
    · intro h
      cases hde : p.description <;> cases hs : p.schedule <;>
        cases hm : p.max_participants <;> cases hp : p.poster <;>
        simp [updatedActivity, h, hde, hs, hm, hp]
    · cases hde : p.description <;> cases hs : p.schedule <;>
        cases hm : p.max_participants <;> cases hp : p.poster <;>
        cases hd : p.draft <;>
        simp [updatedActivity, hde, hs, hm, hp, hd]
    · intro m hm
      rw [heq]
      exact lookup_setEntry_ne s n m _ hm

/-- Witness for C6: updating only the description of Chess keeps its
schedule and draft flag and leaves the neighbouring record alone. -/
theorem update_activity_correct_witness :
    update_activity "Chess" ⟨some "new", none, none, none, none⟩
        [("Chess", ⟨"old", "Mon", 5, [], none, true⟩), ("Art", ⟨"", "", 0, [], none, false⟩)] =
      (setEntry
          [("Chess", ⟨"old", "Mon", 5, [], none, true⟩), ("Art", ⟨"", "", 0, [], none, false⟩)]
          "Chess"
          (updatedActivity ⟨"old", "Mon", 5, [], none, true⟩ ⟨some "new", none, none, none, none⟩),
        .ok (updatedActivity ⟨"old", "Mon", 5, [], none, true⟩
          ⟨some "new", none, none, none, none⟩)) :=
  ((update_activity_correct
      [("Chess", ⟨"old", "Mon", 5, [], none, true⟩), ("Art", ⟨"", "", 0, [], none, false⟩)]
      "Chess" ⟨some "new", none, none, none, none⟩).2
    ⟨"old", "Mon", 5, [], none, true⟩ rfl).1

/-- Claim C7: loading a saved store applies exactly the per-record
default-filling of the three legacy keys, and is the identity on stores
whose records all carry those keys already. -/
theorem save_load_roundtrip (file : StoredData) :
    _load_activities (_save_activities file) =
      file.map (fun e => (e.1, applyDefaults e.2))
    ∧ ((∀ e ∈ file, hasDefaultKeys e.2 = true) →
        _load_activities (_save_activities file) = file) := by
  refine ⟨rfl, ?_⟩
  intro h
  induction file with
  | nil => rfl
  | cons e rest ih =>
      obtain ⟨n, d⟩ := e
      have hd : hasDefaultKeys d = true := h (n, d) (by simp)
      have hrest := ih fun x hx => h x (by simp [hx])
      have hfix : applyDefaults d = d := by
        obtain ⟨d1, d2, d3, d4, d5, d6⟩ := d
        cases d4 with
        | none => simp [hasDefaultKeys] at hd
        | some x =>
            cases d3 with
            | none => simp [hasDefaultKeys] at hd
            | some y =>
                cases d6 with
                | none => simp [hasDefaultKeys] at hd
                | some z => simp [applyDefaults]
      simpa [_load_activities, _save_activities, hfix] using hrest

/-- Witness for C7: a one-record file with all keys present reloads to
itself. -/
theorem save_load_roundtrip_witness :
    _load_activities (_save_activities
        [("Chess", ⟨some "d", some "Mon", some 3, some ["a@b.com"], none, some false⟩)]) =
      [("Chess", ⟨some "d", some "Mon", some 3, some ["a@b.com"], none, some false⟩)] :=
  (save_load_roundtrip
      [("Chess", ⟨some "d", some "Mon", some 3, some ["a@b.com"], none, some false⟩)]).2
    (by simp [hasDefaultKeys])

/-- Claim C10: for an activity in the store and a fresh email, signup
followed by unregister of the same email restores the store exactly, the
unregister reporting success. -/
theorem signup_unregister_roundtrip (s : Store) (n email : String) (a : Activity)
    (ha : lookupActivity s n = some a) (hmem : email ∉ a.participants) :
    (unregister_from_activity n email (signup_for_activity n email s).1).1 = s
    ∧ (unregister_from_activity n email (signup_for_activity n email s).1).2 =
        .ok () := by
  have h1 : signup_for_activity n email s =
      (setEntry s n { a with participants := a.participants ++ [email] }, .ok ()) := by
    simp [signup_for_activity, ha, hmem]
  have h3 : lookupActivity (setEntry s n { a with participants := a.participants ++ [email] }) n =
      some { a with participants := a.participants ++ [email] } :=
    lookup_setEntry_self s n a _ ha
  have hmem2 : email ∈ a.participants ++ [email] := by simp
  have herase : (a.participants ++ [email]).erase email = a.participants := by
    rw [List.erase_append_right _ hmem]
    simp
  rw [h1]
  have hun : unregister_from_activity n email
      (setEntry s n { a with participants := a.participants ++ [email] }) =
      (setEntry (setEntry s n { a with participants := a.participants ++ [email] }) n
        { a with participants := (a.participants ++ [email]).erase email }, .ok ()) := by
    simp [unregister_from_activity, h3, hmem2]
  rw [hun]
  constructor
  · rw [setEntry_setEntry]
    have heq : ({ a with participants := (a.participants ++ [email]).erase email } : Activity) = a := by
      rw [herase]
    rw [heq]
    exact setEntry_lookup_self s n a ha
  · rfl

/-- Witness for C10: signing a@b.com up for Chess and unregistering them
restores the original one-record store. -/
theorem signup_unregister_roundtrip_witness :
    (unregister_from_activity "Chess" "a@b.com"
        (signup_for_activity "Chess" "a@b.com"
          [("Chess", ⟨"", "", 0, [], none, false⟩)]).1).1 =
      [("Chess", ⟨"", "", 0, [], none, false⟩)] :=
  (signup_unregister_roundtrip [("Chess", ⟨"", "", 0, [], none, false⟩)]
    "Chess" "a@b.com" ⟨"", "", 0, [], none, false⟩ rfl (by simp)).1
